import Mathlib

/-!
Shallow embedding of the deterministic thermal-resistance-network solver
of the thermal-analysis repository (src/core/*.py and the service layer
src/app/services/thermal_service.py).

Python floats are modelled as real numbers, Python ints as integers, and
a function that may raise ValueError is modelled as a function into
`Except String ℝ`, the error carrying the exception message verbatim.
Python `** 0.5` on a nonnegative base is modelled as `Real.sqrt`, other
fractional powers as `Real.rpow`, and `math.tanh` as `Real.tanh`.
-/

noncomputable section

/-- Embedding of `compute_die_area` from src/core/geometry.py. -/
def compute_die_area (die_length die_width : ℝ) : Except String ℝ :=
  if die_length ≤ 0 then .error "Die length must be positive"
  else if die_width ≤ 0 then .error "Die width must be positive"
  else .ok (die_length * die_width)

/-- Embedding of `compute_fin_spacing` from src/core/geometry.py. -/
def compute_fin_spacing (sink_width : ℝ) (number_of_fins : ℤ)
    (fin_thickness : ℝ) : Except String ℝ :=
  if sink_width ≤ 0 then .error "Sink width must be positive"
  else if number_of_fins ≤ 1 then .error "Number of fins must be greater than 1"
  else if fin_thickness ≤ 0 then .error "Fin thickness must be positive"
  else
    let usable_width := sink_width - (number_of_fins : ℝ) * fin_thickness
    if usable_width ≤ 0 then
      .error "Invalid fin geometry: fins occupy entire sink width"
    else .ok (usable_width / ((number_of_fins : ℝ) - 1))

/-- Embedding of `compute_total_convection_area` from src/core/geometry.py. -/
def compute_total_convection_area (fin_height sink_length : ℝ)
    (number_of_fins : ℤ) : Except String ℝ :=
  if fin_height ≤ 0 then .error "Fin height must be positive"
  else if sink_length ≤ 0 then .error "Sink length must be positive"
  else if number_of_fins ≤ 0 then .error "Number of fins must be positive"
  else .ok (2.0 * (number_of_fins : ℝ) * fin_height * sink_length)

/-- Embedding of `compute_tim_resistance` from src/core/tim.py. -/
def compute_tim_resistance (tim_thickness tim_thermal_conductivity die_area : ℝ) :
    Except String ℝ :=
  if tim_thickness ≤ 0 then .error "TIM thickness must be positive"
  else if tim_thermal_conductivity ≤ 0 then
    .error "TIM thermal conductivity must be positive"
  else if die_area ≤ 0 then .error "Die area must be positive"
  else .ok (tim_thickness / (tim_thermal_conductivity * die_area))

/-- Embedding of `compute_conduction_resistance` from src/core/conduction.py. -/
def compute_conduction_resistance (base_thickness thermal_conductivity die_area : ℝ) :
    Except String ℝ :=
  if base_thickness ≤ 0 then .error "Base thickness must be positive"
  else if thermal_conductivity ≤ 0 then .error "Thermal conductivity must be positive"
  else if die_area ≤ 0 then .error "Die area must be positive"
  else .ok (base_thickness / (thermal_conductivity * die_area))

/-- Embedding of `compute_reynolds_number` from src/core/convection.py. -/
def compute_reynolds_number (air_velocity characteristic_length kinematic_viscosity : ℝ) :
    Except String ℝ :=
  if air_velocity ≤ 0 then .error "Air velocity must be positive"
  else if characteristic_length ≤ 0 then .error "Characteristic length must be positive"
  else if kinematic_viscosity ≤ 0 then .error "Kinematic viscosity must be positive"
  else .ok (air_velocity * characteristic_length / kinematic_viscosity)

/-- Embedding of `compute_nusselt_number` from src/core/convection.py. -/
def compute_nusselt_number (reynolds_number prandtl_number fin_spacing fin_height : ℝ) :
    Except String ℝ :=
  if reynolds_number ≤ 0 then .error "Reynolds number must be positive"
  else if prandtl_number ≤ 0 then .error "Prandtl number must be positive"
  else if fin_spacing ≤ 0 then .error "Fin spacing must be positive"
  else if fin_height ≤ 0 then .error "Fin height must be positive"
  else if reynolds_number < 2300 then
    .ok (1.86 * (reynolds_number * prandtl_number * (2 * fin_spacing / fin_height))
      ^ ((1 : ℝ) / 3))
  else
    .ok (0.023 * reynolds_number ^ (0.8 : ℝ) * prandtl_number ^ (0.3 : ℝ))

/-- Embedding of `compute_heat_transfer_coefficient` from src/core/convection.py. -/
def compute_heat_transfer_coefficient
    (nusselt_number air_thermal_conductivity fin_spacing : ℝ) : Except String ℝ :=
  if nusselt_number ≤ 0 then .error "Nusselt number must be positive"
  else if air_thermal_conductivity ≤ 0 then
    .error "Air thermal conductivity must be positive"
  else if fin_spacing ≤ 0 then .error "Fin spacing must be positive"
  else .ok (nusselt_number * air_thermal_conductivity / (2 * fin_spacing))

/-- Embedding of `compute_fin_efficiency` from src/core/convection.py. -/
def compute_fin_efficiency
    (fin_height heat_transfer_coefficient fin_thickness thermal_conductivity : ℝ) :
    Except String ℝ :=
  if fin_height ≤ 0 then .error "Fin height must be positive"
  else if heat_transfer_coefficient ≤ 0 then
    .error "Heat transfer coefficient must be positive"
  else if fin_thickness ≤ 0 then .error "Fin thickness must be positive"
  else if thermal_conductivity ≤ 0 then .error "Thermal conductivity must be positive"
  else
    let m := Real.sqrt (2.0 * heat_transfer_coefficient /
      (thermal_conductivity * fin_thickness))
    let m_l := m * fin_height
    if m_l > 10 then .ok (1.0 / m_l)
    else .ok (Real.tanh m_l / m_l)

/-- Embedding of `compute_convection_resistance` from src/core/convection.py.
The Python default arguments (fin thickness 0.0008, sink conductivity 167.0)
are made explicit parameters; every call site in the repository passes both. -/
def compute_convection_resistance
    (air_velocity fin_spacing fin_height total_convection_area
      air_thermal_conductivity kinematic_viscosity prandtl_number
      fin_thickness sink_thermal_conductivity : ℝ) : Except String ℝ :=
  if total_convection_area ≤ 0 then .error "Total convection area must be positive"
  else do
    let reynolds_number ← compute_reynolds_number air_velocity fin_spacing
      kinematic_viscosity
    let nusselt_number ← compute_nusselt_number reynolds_number prandtl_number
      fin_spacing fin_height
    let h ← compute_heat_transfer_coefficient nusselt_number
      air_thermal_conductivity fin_spacing
    let fin_efficiency ← compute_fin_efficiency fin_height h fin_thickness
      sink_thermal_conductivity
    .ok (1.0 / (h * total_convection_area * fin_efficiency))

/-- Embedding of `compute_heat_sink_resistance` from src/core/resistance_network.py. -/
def compute_heat_sink_resistance (conduction_resistance convection_resistance : ℝ) :
    Except String ℝ :=
  if conduction_resistance ≤ 0 then .error "Conduction resistance must be positive"
  else if convection_resistance ≤ 0 then .error "Convection resistance must be positive"
  else .ok (conduction_resistance + convection_resistance)

/-- Embedding of `compute_total_resistance` from src/core/resistance_network.py. -/
def compute_total_resistance
    (junction_to_case_resistance tim_resistance heat_sink_resistance : ℝ) :
    Except String ℝ :=
  if junction_to_case_resistance < 0 then
    .error "Junction-to-case resistance cannot be negative"
  else if tim_resistance ≤ 0 then .error "TIM resistance must be positive"
  else if heat_sink_resistance ≤ 0 then .error "Heat sink resistance must be positive"
  else .ok (junction_to_case_resistance + tim_resistance + heat_sink_resistance)

/-- Embedding of `compute_junction_temperature` from src/core/solver.py. -/
def compute_junction_temperature
    (ambient_temperature heat_dissipation total_thermal_resistance : ℝ) :
    Except String ℝ :=
  if total_thermal_resistance ≤ 0 then
    .error "Total thermal resistance must be positive"
  else if heat_dissipation < 0 then .error "Heat dissipation cannot be negative"
  else .ok (ambient_temperature + heat_dissipation * total_thermal_resistance)

/-- The `heat_sink` object of a validated request payload.  The schema in
src/app/schemas/io_models.py never inspects `thermal_conductivity`, so the
field is optional: `none` models a payload with the key absent. -/
structure HeatSinkInput where
  sink_length : ℝ
  sink_width : ℝ
  base_thickness : ℝ
  number_of_fins : ℤ
  fin_thickness : ℝ
  fin_height : ℝ
  thermal_conductivity : Option ℝ

/-- A validated thermal-analysis request payload (the fields that
`run_thermal_analysis` in src/app/services/thermal_service.py reads). -/
structure ThermalRequest where
  die_length : ℝ
  die_width : ℝ
  power : ℝ
  heat_sink : HeatSinkInput
  tim_thickness : ℝ
  tim_thermal_conductivity : ℝ
  air_velocity : ℝ
  air_thermal_conductivity : ℝ
  kinematic_viscosity : ℝ
  prandtl_number : ℝ
  ambient_temperature : ℝ
  junction_to_case_resistance : ℝ

/-- The response record built by `ThermalResponseSchema.build`. -/
structure ThermalResponse where
  r_tim : ℝ
  r_conduction : ℝ
  r_convection : ℝ
  r_heat_sink : ℝ
  r_total : ℝ
  junction_temperature : ℝ

/-- Embedding of `run_thermal_analysis` from
src/app/services/thermal_service.py.  Schema validation
(`ThermalRequestSchema.validate`) returns the payload unchanged and never
touches the optional `heat_sink.thermal_conductivity` key, so the embedding
starts from the validated record.  The two occurrences of
`data["heat_sink"].get("thermal_conductivity", 167.0)` in the source are
mirrored by two occurrences of `Option.getD _ 167.0`. -/
def run_thermal_analysis (p : ThermalRequest) : Except String ThermalResponse := do
  let die_area ← compute_die_area p.die_length p.die_width
  let fin_spacing ← compute_fin_spacing p.heat_sink.sink_width
    p.heat_sink.number_of_fins p.heat_sink.fin_thickness
  let convection_area ← compute_total_convection_area p.heat_sink.fin_height
    p.heat_sink.sink_length p.heat_sink.number_of_fins
  let r_tim ← compute_tim_resistance p.tim_thickness p.tim_thermal_conductivity
    die_area
  let r_conduction ← compute_conduction_resistance p.heat_sink.base_thickness
    (p.heat_sink.thermal_conductivity.getD 167.0) die_area
  let r_convection ← compute_convection_resistance p.air_velocity fin_spacing
    p.heat_sink.fin_height convection_area p.air_thermal_conductivity
    p.kinematic_viscosity p.prandtl_number p.heat_sink.fin_thickness
    (p.heat_sink.thermal_conductivity.getD 167.0)
  let r_heat_sink ← compute_heat_sink_resistance r_conduction r_convection
  let r_total ← compute_total_resistance p.junction_to_case_resistance r_tim
    r_heat_sink
  let junction_temperature ← compute_junction_temperature p.ambient_temperature
    p.power r_total
  .ok ⟨r_tim, r_conduction, r_convection, r_heat_sink, r_total, junction_temperature⟩

/-- Spec-side variant for the refinement claim about sink conductivity:
the spec says one single sink-conductivity value drives both the conduction
step and the fin-efficiency step, so this variant takes that single value
`k` as a parameter and passes it to both calls. -/
def run_thermal_analysis_single_sink_conductivity (p : ThermalRequest) (k : ℝ) :
    Except String ThermalResponse := do
  let die_area ← compute_die_area p.die_length p.die_width
  let fin_spacing ← compute_fin_spacing p.heat_sink.sink_width
    p.heat_sink.number_of_fins p.heat_sink.fin_thickness
  let convection_area ← compute_total_convection_area p.heat_sink.fin_height
    p.heat_sink.sink_length p.heat_sink.number_of_fins
  let r_tim ← compute_tim_resistance p.tim_thickness p.tim_thermal_conductivity
    die_area
  let r_conduction ← compute_conduction_resistance p.heat_sink.base_thickness k
    die_area
  let r_convection ← compute_convection_resistance p.air_velocity fin_spacing
    p.heat_sink.fin_height convection_area p.air_thermal_conductivity
    p.kinematic_viscosity p.prandtl_number p.heat_sink.fin_thickness k
  let r_heat_sink ← compute_heat_sink_resistance r_conduction r_convection
  let r_total ← compute_total_resistance p.junction_to_case_resistance r_tim
    r_heat_sink
  let junction_temperature ← compute_junction_temperature p.ambient_temperature
    p.power r_total
  .ok ⟨r_tim, r_conduction, r_convection, r_heat_sink, r_total, junction_temperature⟩

/-- The value returned by `compute_fin_efficiency` on valid inputs, as a plain
real-valued function (used to state lemmas about the convection pipeline). -/
def fin_efficiency_value
    (fin_height heat_transfer_coefficient fin_thickness thermal_conductivity : ℝ) : ℝ :=
  if Real.sqrt (2.0 * heat_transfer_coefficient /
      (thermal_conductivity * fin_thickness)) * fin_height > 10
  then 1.0 / (Real.sqrt (2.0 * heat_transfer_coefficient /
    (thermal_conductivity * fin_thickness)) * fin_height)
  else Real.tanh (Real.sqrt (2.0 * heat_transfer_coefficient /
      (thermal_conductivity * fin_thickness)) * fin_height) /
    (Real.sqrt (2.0 * heat_transfer_coefficient /
      (thermal_conductivity * fin_thickness)) * fin_height)

/-- The value returned by `compute_nusselt_number` on valid inputs, as a plain
real-valued function. -/
def nusselt_value (reynolds_number prandtl_number fin_spacing fin_height : ℝ) : ℝ :=
  if reynolds_number < 2300 then
    1.86 * (reynolds_number * prandtl_number * (2 * fin_spacing / fin_height))
      ^ ((1 : ℝ) / 3)
  else 0.023 * reynolds_number ^ (0.8 : ℝ) * prandtl_number ^ (0.3 : ℝ)

/-- Helper for the fin-efficiency monotonicity argument: with x = m·L, the
product h·η equals (k·t)/(2·L²) times this quantity. -/
def fin_ml_gain (x : ℝ) : ℝ :=
  if x > 10 then x else x * Real.tanh x

end

/-! Unfolding lemmas (zeta-reduced bodies, all definitional). -/

lemma compute_fin_spacing_def (w : ℝ) (n : ℤ) (t : ℝ) :
    compute_fin_spacing w n t =
      if w ≤ 0 then .error "Sink width must be positive"
      else if n ≤ 1 then .error "Number of fins must be greater than 1"
      else if t ≤ 0 then .error "Fin thickness must be positive"
      else if w - (n : ℝ) * t ≤ 0 then
        .error "Invalid fin geometry: fins occupy entire sink width"
      else .ok ((w - (n : ℝ) * t) / ((n : ℝ) - 1)) := rfl

lemma compute_fin_efficiency_def (L h t k : ℝ) :
    compute_fin_efficiency L h t k =
      if L ≤ 0 then .error "Fin height must be positive"
      else if h ≤ 0 then .error "Heat transfer coefficient must be positive"
      else if t ≤ 0 then .error "Fin thickness must be positive"
      else if k ≤ 0 then .error "Thermal conductivity must be positive"
      else if Real.sqrt (2.0 * h / (k * t)) * L > 10 then
        .ok (1.0 / (Real.sqrt (2.0 * h / (k * t)) * L))
      else .ok (Real.tanh (Real.sqrt (2.0 * h / (k * t)) * L) /
        (Real.sqrt (2.0 * h / (k * t)) * L)) := rfl

lemma compute_convection_resistance_def
    (v s H A k ν Pr t ks : ℝ) :
    compute_convection_resistance v s H A k ν Pr t ks =
      if A ≤ 0 then .error "Total convection area must be positive"
      else (compute_reynolds_number v s ν).bind fun reynolds_number =>
        (compute_nusselt_number reynolds_number Pr s H).bind fun nusselt_number =>
          (compute_heat_transfer_coefficient nusselt_number k s).bind fun h =>
            (compute_fin_efficiency H h t ks).bind fun fin_efficiency =>
              .ok (1.0 / (h * A * fin_efficiency)) := rfl

lemma except_bind_ok {α β : Type} (a : α) (f : α → Except String β) :
    (Except.ok a : Except String α).bind f = f a := rfl

/-! Success-value lemmas for the convection pipeline steps. -/

lemma compute_reynolds_number_ok (v L ν : ℝ) (hv : 0 < v) (hL : 0 < L)
    (hν : 0 < ν) : compute_reynolds_number v L ν = .ok (v * L / ν) := by
  unfold compute_reynolds_number
  rw [if_neg (not_le.mpr hv), if_neg (not_le.mpr hL), if_neg (not_le.mpr hν)]

lemma compute_nusselt_number_ok (Re Pr s H : ℝ) (h1 : 0 < Re) (h2 : 0 < Pr)
    (h3 : 0 < s) (h4 : 0 < H) :
    compute_nusselt_number Re Pr s H = .ok (nusselt_value Re Pr s H) := by
  unfold compute_nusselt_number nusselt_value
  rw [if_neg (not_le.mpr h1), if_neg (not_le.mpr h2), if_neg (not_le.mpr h3),
    if_neg (not_le.mpr h4), apply_ite Except.ok]

lemma compute_heat_transfer_coefficient_ok (Nu k s : ℝ) (h1 : 0 < Nu)
    (h2 : 0 < k) (h3 : 0 < s) :
    compute_heat_transfer_coefficient Nu k s = .ok (Nu * k / (2 * s)) := by
  unfold compute_heat_transfer_coefficient
  rw [if_neg (not_le.mpr h1), if_neg (not_le.mpr h2), if_neg (not_le.mpr h3)]

lemma compute_fin_efficiency_ok (L h t k : ℝ) (hL : 0 < L) (hh : 0 < h)
    (ht : 0 < t) (hk : 0 < k) :
    compute_fin_efficiency L h t k = .ok (fin_efficiency_value L h t k) := by
  rw [compute_fin_efficiency_def]
  unfold fin_efficiency_value
  rw [if_neg (not_le.mpr hL), if_neg (not_le.mpr hh), if_neg (not_le.mpr ht),
    if_neg (not_le.mpr hk), apply_ite Except.ok]

/-! Facts about the real hyperbolic tangent used by the fin-efficiency
analysis. -/

lemma real_tanh_pos {x : ℝ} (hx : 0 < x) : 0 < Real.tanh x := by
  rw [Real.tanh_eq_sinh_div_cosh]
  exact div_pos (Real.sinh_pos_iff.mpr hx) (Real.cosh_pos x)

lemma real_tanh_lt_one (x : ℝ) : Real.tanh x < 1 := by
  rw [Real.tanh_eq_sinh_div_cosh, div_lt_one (Real.cosh_pos x)]
  exact Real.sinh_lt_cosh x

lemma real_tanh_lt_tanh {x y : ℝ} (hxy : x < y) : Real.tanh x < Real.tanh y := by
  rw [Real.tanh_eq_sinh_div_cosh, Real.tanh_eq_sinh_div_cosh,
    div_lt_div_iff₀ (Real.cosh_pos x) (Real.cosh_pos y)]
  have hpos : 0 < Real.sinh (y - x) := Real.sinh_pos_iff.mpr (sub_pos.mpr hxy)
  rw [Real.sinh_sub] at hpos
  nlinarith [hpos]

/-! Forward success lemmas for the remaining core functions. -/

lemma compute_die_area_ok (l w : ℝ) (hl : 0 < l) (hw : 0 < w) :
    compute_die_area l w = .ok (l * w) := by
  unfold compute_die_area
  rw [if_neg (not_le.mpr hl), if_neg (not_le.mpr hw)]

lemma compute_fin_spacing_ok (w t : ℝ) (n : ℤ) (hw : 0 < w) (hn : 1 < n)
    (ht : 0 < t) (hlt : (n : ℝ) * t < w) :
    compute_fin_spacing w n t = .ok ((w - (n : ℝ) * t) / ((n : ℝ) - 1)) := by
  rw [compute_fin_spacing_def, if_neg (not_le.mpr hw), if_neg (not_le.mpr hn),
    if_neg (not_le.mpr ht), if_neg (not_le.mpr (by linarith))]

lemma compute_total_convection_area_ok (h L : ℝ) (n : ℤ) (hh : 0 < h)
    (hL : 0 < L) (hn : 0 < n) :
    compute_total_convection_area h L n = .ok (2.0 * (n : ℝ) * h * L) := by
  unfold compute_total_convection_area
  rw [if_neg (not_le.mpr hh), if_neg (not_le.mpr hL), if_neg (not_le.mpr hn)]

lemma compute_tim_resistance_ok (t k a : ℝ) (ht : 0 < t) (hk : 0 < k)
    (ha : 0 < a) : compute_tim_resistance t k a = .ok (t / (k * a)) := by
  unfold compute_tim_resistance
  rw [if_neg (not_le.mpr ht), if_neg (not_le.mpr hk), if_neg (not_le.mpr ha)]

lemma compute_conduction_resistance_ok (b k a : ℝ) (hb : 0 < b) (hk : 0 < k)
    (ha : 0 < a) : compute_conduction_resistance b k a = .ok (b / (k * a)) := by
  unfold compute_conduction_resistance
  rw [if_neg (not_le.mpr hb), if_neg (not_le.mpr hk), if_neg (not_le.mpr ha)]

lemma compute_heat_sink_resistance_ok (c v : ℝ) (hc : 0 < c) (hv : 0 < v) :
    compute_heat_sink_resistance c v = .ok (c + v) := by
  unfold compute_heat_sink_resistance
  rw [if_neg (not_le.mpr hc), if_neg (not_le.mpr hv)]

lemma compute_total_resistance_ok (jc t hs : ℝ) (hjc : 0 ≤ jc) (ht : 0 < t)
    (hhs : 0 < hs) : compute_total_resistance jc t hs = .ok (jc + t + hs) := by
  unfold compute_total_resistance
  rw [if_neg (not_lt.mpr hjc), if_neg (not_le.mpr ht), if_neg (not_le.mpr hhs)]

lemma compute_junction_temperature_ok (T Q R : ℝ) (hR : 0 < R) (hQ : 0 ≤ Q) :
    compute_junction_temperature T Q R = .ok (T + Q * R) := by
  unfold compute_junction_temperature
  rw [if_neg (not_le.mpr hR), if_neg (not_lt.mpr hQ)]

/-! Positivity of the pipeline values. -/

lemma nusselt_value_pos (Re Pr s H : ℝ) (h1 : 0 < Re) (h2 : 0 < Pr)
    (h3 : 0 < s) (h4 : 0 < H) : 0 < nusselt_value Re Pr s H := by
  unfold nusselt_value
  split_ifs
  · positivity
  · positivity

lemma fin_efficiency_value_pos (L h t k : ℝ) (hL : 0 < L) (hh : 0 < h)
    (ht : 0 < t) (hk : 0 < k) : 0 < fin_efficiency_value L h t k := by
  have hx : 0 < Real.sqrt (2.0 * h / (k * t)) * L :=
    mul_pos (Real.sqrt_pos.mpr (by positivity)) hL
  unfold fin_efficiency_value
  split_ifs
  · positivity
  · exact div_pos (real_tanh_pos hx) hx

lemma compute_convection_resistance_ok (v s H A k ν Pr t ks : ℝ)
    (hv : 0 < v) (hs : 0 < s) (hH : 0 < H) (hA : 0 < A) (hk : 0 < k)
    (hν : 0 < ν) (hPr : 0 < Pr) (ht : 0 < t) (hks : 0 < ks) :
    compute_convection_resistance v s H A k ν Pr t ks =
      .ok (1.0 / (nusselt_value (v * s / ν) Pr s H * k / (2 * s) * A *
        fin_efficiency_value H
          (nusselt_value (v * s / ν) Pr s H * k / (2 * s)) t ks)) := by
  have hRe : 0 < v * s / ν := by positivity
  have hNu := nusselt_value_pos (v * s / ν) Pr s H hRe hPr hs hH
  have hhtc : 0 < nusselt_value (v * s / ν) Pr s H * k / (2 * s) := by positivity
  rw [compute_convection_resistance_def, if_neg (not_le.mpr hA),
    compute_reynolds_number_ok v s ν hv hs hν, except_bind_ok,
    compute_nusselt_number_ok _ Pr s H hRe hPr hs hH, except_bind_ok,
    compute_heat_transfer_coefficient_ok _ k s hNu hk hs, except_bind_ok,
    compute_fin_efficiency_ok H _ t ks hH hhtc ht hks, except_bind_ok]

/-! Inverse lemmas: a successful return forces every validated operand into
range. -/

lemma bind_ok_inv {α β : Type} {e : Except String α} {f : α → Except String β}
    {r : β} (h : e.bind f = .ok r) : ∃ a, e = .ok a ∧ f a = .ok r := by
  cases e with
  | error s => exact Except.noConfusion h
  | ok a => exact ⟨a, rfl, h⟩

lemma compute_die_area_ok_inv {l w r : ℝ} (h : compute_die_area l w = .ok r) :
    0 < l ∧ 0 < w := by
  unfold compute_die_area at h
  split_ifs at h with h1 h2
  · exact ⟨not_le.mp h1, not_le.mp h2⟩

lemma compute_fin_spacing_ok_inv {w t r : ℝ} {n : ℤ}
    (h : compute_fin_spacing w n t = .ok r) :
    0 < w ∧ 1 < n ∧ 0 < t ∧ (n : ℝ) * t < w := by
  rw [compute_fin_spacing_def] at h
  split_ifs at h with h1 h2 h3 h4
  · exact ⟨not_le.mp h1, not_le.mp h2, not_le.mp h3, by linarith [not_le.mp h4]⟩

lemma compute_total_convection_area_ok_inv {h L r : ℝ} {n : ℤ}
    (hr : compute_total_convection_area h L n = .ok r) :
    0 < h ∧ 0 < L ∧ 0 < n := by
  unfold compute_total_convection_area at hr
  split_ifs at hr with h1 h2 h3
  · exact ⟨not_le.mp h1, not_le.mp h2, not_le.mp h3⟩

lemma compute_tim_resistance_ok_inv {t k a r : ℝ}
    (h : compute_tim_resistance t k a = .ok r) : 0 < t ∧ 0 < k ∧ 0 < a := by
  unfold compute_tim_resistance at h
  split_ifs at h with h1 h2 h3
  · exact ⟨not_le.mp h1, not_le.mp h2, not_le.mp h3⟩

lemma compute_conduction_resistance_ok_inv {b k a r : ℝ}
    (h : compute_conduction_resistance b k a = .ok r) :
    0 < b ∧ 0 < k ∧ 0 < a := by
  unfold compute_conduction_resistance at h
  split_ifs at h with h1 h2 h3
  · exact ⟨not_le.mp h1, not_le.mp h2, not_le.mp h3⟩

lemma compute_reynolds_number_ok_inv {v L ν r : ℝ}
    (h : compute_reynolds_number v L ν = .ok r) : 0 < v ∧ 0 < L ∧ 0 < ν := by
  unfold compute_reynolds_number at h
  split_ifs at h with h1 h2 h3
  · exact ⟨not_le.mp h1, not_le.mp h2, not_le.mp h3⟩

lemma compute_nusselt_number_ok_inv {Re Pr s H r : ℝ}
    (h : compute_nusselt_number Re Pr s H = .ok r) :
    0 < Re ∧ 0 < Pr ∧ 0 < s ∧ 0 < H := by
  unfold compute_nusselt_number at h
  split_ifs at h with h1 h2 h3 h4
  · exact ⟨not_le.mp h1, not_le.mp h2, not_le.mp h3, not_le.mp h4⟩
  · exact ⟨not_le.mp h1, not_le.mp h2, not_le.mp h3, not_le.mp h4⟩

lemma compute_heat_transfer_coefficient_ok_inv {Nu k s r : ℝ}
    (h : compute_heat_transfer_coefficient Nu k s = .ok r) :
    0 < Nu ∧ 0 < k ∧ 0 < s := by
  unfold compute_heat_transfer_coefficient at h
  split_ifs at h with h1 h2 h3
  · exact ⟨not_le.mp h1, not_le.mp h2, not_le.mp h3⟩

lemma compute_fin_efficiency_ok_inv {L h t k r : ℝ}
    (hr : compute_fin_efficiency L h t k = .ok r) :
    0 < L ∧ 0 < h ∧ 0 < t ∧ 0 < k := by
  rw [compute_fin_efficiency_def] at hr
  split_ifs at hr with h1 h2 h3 h4
  · exact ⟨not_le.mp h1, not_le.mp h2, not_le.mp h3, not_le.mp h4⟩
  · exact ⟨not_le.mp h1, not_le.mp h2, not_le.mp h3, not_le.mp h4⟩

lemma compute_convection_resistance_ok_inv {v s H A k ν Pr t ks r : ℝ}
    (h : compute_convection_resistance v s H A k ν Pr t ks = .ok r) :
    0 < v ∧ 0 < s ∧ 0 < H ∧ 0 < A ∧ 0 < k ∧ 0 < ν ∧ 0 < Pr ∧ 0 < t ∧ 0 < ks := by
  rw [compute_convection_resistance_def] at h
  split_ifs at h with h1
  · obtain ⟨Re, hRe, h⟩ := bind_ok_inv h
    obtain ⟨Nu, hNu, h⟩ := bind_ok_inv h
    obtain ⟨hc, hh, h⟩ := bind_ok_inv h
    obtain ⟨η, hη, h⟩ := bind_ok_inv h
    obtain ⟨hv, hs, hν⟩ := compute_reynolds_number_ok_inv hRe
    obtain ⟨_, hPr, _, hH⟩ := compute_nusselt_number_ok_inv hNu
    obtain ⟨_, hk, _⟩ := compute_heat_transfer_coefficient_ok_inv hh
    obtain ⟨_, _, ht, hks⟩ := compute_fin_efficiency_ok_inv hη
    exact ⟨hv, hs, hH, not_le.mp h1, hk, hν, hPr, ht, hks⟩

lemma compute_heat_sink_resistance_ok_inv {c v r : ℝ}
    (h : compute_heat_sink_resistance c v = .ok r) : 0 < c ∧ 0 < v := by
  unfold compute_heat_sink_resistance at h
  split_ifs at h with h1 h2
  · exact ⟨not_le.mp h1, not_le.mp h2⟩

lemma compute_total_resistance_ok_inv {jc t hs r : ℝ}
    (h : compute_total_resistance jc t hs = .ok r) :
    0 ≤ jc ∧ 0 < t ∧ 0 < hs := by
  unfold compute_total_resistance at h
  split_ifs at h with h1 h2 h3
  · exact ⟨not_lt.mp h1, not_le.mp h2, not_le.mp h3⟩

lemma compute_junction_temperature_ok_inv {T Q R r : ℝ}
    (h : compute_junction_temperature T Q R = .ok r) : 0 < R ∧ 0 ≤ Q := by
  unfold compute_junction_temperature at h
  split_ifs at h with h1 h2
  · exact ⟨not_le.mp h1, not_lt.mp h2⟩

/-! Monotonicity machinery for the convection resistance (C3). -/

lemma fin_ml_gain_lt {x y : ℝ} (hx : 0 < x) (hxy : x < y) :
    fin_ml_gain x < fin_ml_gain y := by
  unfold fin_ml_gain
  split_ifs with h1 h2 h2
  · exact hxy
  · linarith
  · push_neg at h1
    nlinarith [mul_lt_mul_of_pos_left (real_tanh_lt_one x) hx]
  · exact mul_lt_mul hxy (le_of_lt (real_tanh_lt_tanh hxy)) (real_tanh_pos hx)
      (by linarith)

lemma h_mul_fin_efficiency_value (L h t k : ℝ) (hL : 0 < L) (hh : 0 < h)
    (ht : 0 < t) (hk : 0 < k) :
    h * fin_efficiency_value L h t k =
      (k * t / (2 * L ^ 2)) *
        fin_ml_gain (Real.sqrt (2.0 * h / (k * t)) * L) := by
  unfold fin_efficiency_value fin_ml_gain
  set x := Real.sqrt (2.0 * h / (k * t)) * L with hxdef
  have hx : 0 < x := mul_pos (Real.sqrt_pos.mpr (by positivity)) hL
  have hx2 : x ^ 2 = (2.0 * h / (k * t)) * L ^ 2 := by
    rw [hxdef, mul_pow, Real.sq_sqrt (by positivity)]
  have hhx : h = x ^ 2 * (k * t) / (2 * L ^ 2) := by
    rw [hx2]
    field_simp
    ring
  split_ifs with h1
  · rw [hhx]
    field_simp
    ring
  · rw [hhx]
    field_simp
    ring

lemma h_mul_eff_strict_mono (L t k h1 h2 : ℝ) (hL : 0 < L) (ht : 0 < t)
    (hk : 0 < k) (hh1 : 0 < h1) (h12 : h1 < h2) :
    h1 * fin_efficiency_value L h1 t k < h2 * fin_efficiency_value L h2 t k := by
  rw [h_mul_fin_efficiency_value L h1 t k hL hh1 ht hk,
    h_mul_fin_efficiency_value L h2 t k hL (by linarith) ht hk]
  have hx1 : 0 < Real.sqrt (2.0 * h1 / (k * t)) * L :=
    mul_pos (Real.sqrt_pos.mpr (by positivity)) hL
  have hxlt : Real.sqrt (2.0 * h1 / (k * t)) * L <
      Real.sqrt (2.0 * h2 / (k * t)) * L := by
    apply mul_lt_mul_of_pos_right _ hL
    apply Real.sqrt_lt_sqrt (by positivity)
    gcongr
  exact mul_lt_mul_of_pos_left (fin_ml_gain_lt hx1 hxlt) (by positivity)

lemma nusselt_value_lt (Re1 Re2 Pr s H : ℝ) (h1 : 0 < Re1) (h12 : Re1 < Re2)
    (hPr : 0 < Pr) (hs : 0 < s) (hH : 0 < H)
    (hreg : Re2 < 2300 ∨ 2300 ≤ Re1) :
    nusselt_value Re1 Pr s H < nusselt_value Re2 Pr s H := by
  unfold nusselt_value
  rcases hreg with hreg | hreg
  · rw [if_pos (lt_trans h12 hreg), if_pos hreg]
    apply mul_lt_mul_of_pos_left _ (by norm_num)
    apply Real.rpow_lt_rpow (by positivity) _ (by norm_num)
    have hc : 0 < 2 * s / H := by positivity
    exact mul_lt_mul_of_pos_right (mul_lt_mul_of_pos_right h12 hPr) hc
  · rw [if_neg (not_lt.mpr hreg), if_neg (not_lt.mpr (by linarith))]
    apply mul_lt_mul_of_pos_right _ (Real.rpow_pos_of_pos hPr _)
    apply mul_lt_mul_of_pos_left _ (by norm_num)
    exact Real.rpow_lt_rpow (le_of_lt h1) h12 (by norm_num)

/-! Concrete bounds on the two correlations near the Re = 2300 boundary. -/

lemma rpow_2300_08_lt_600 : (2300 : ℝ) ^ (0.8 : ℝ) < 600 := by
  have hb : (0 : ℝ) ≤ 2300 := by norm_num
  have hpow : ((2300 : ℝ) ^ (0.8 : ℝ)) ^ (5 : ℕ) = (2300 : ℝ) ^ (4 : ℕ) := by
    rw [← Real.rpow_natCast ((2300 : ℝ) ^ (0.8 : ℝ)) 5, ← Real.rpow_mul hb,
      show ((0.8 : ℝ) * (5 : ℕ)) = ((4 : ℕ) : ℝ) by norm_num,
      Real.rpow_natCast]
  by_contra hcon
  push_neg at hcon
  have h5 : (600 : ℝ) ^ (5 : ℕ) ≤ ((2300 : ℝ) ^ (0.8 : ℝ)) ^ (5 : ℕ) :=
    pow_le_pow_left (by norm_num) hcon 5
  rw [hpow] at h5
  norm_num at h5

lemma rpow_2300_08_gt_400 : (400 : ℝ) < (2300 : ℝ) ^ (0.8 : ℝ) := by
  have hb : (0 : ℝ) ≤ 2300 := by norm_num
  have hpow : ((2300 : ℝ) ^ (0.8 : ℝ)) ^ (5 : ℕ) = (2300 : ℝ) ^ (4 : ℕ) := by
    rw [← Real.rpow_natCast ((2300 : ℝ) ^ (0.8 : ℝ)) 5, ← Real.rpow_mul hb,
      show ((0.8 : ℝ) * (5 : ℕ)) = ((4 : ℕ) : ℝ) by norm_num,
      Real.rpow_natCast]
  by_contra hcon
  push_neg at hcon
  have h5 : ((2300 : ℝ) ^ (0.8 : ℝ)) ^ (5 : ℕ) ≤ (400 : ℝ) ^ (5 : ℕ) :=
    pow_le_pow_left (Real.rpow_nonneg hb _) hcon 5
  rw [hpow] at h5
  norm_num at h5

lemma cbrt_2299_gt_13 : (13 : ℝ) < (2299 : ℝ) ^ ((1 : ℝ) / 3) := by
  have hb : (0 : ℝ) ≤ 2299 := by norm_num
  have hpow : ((2299 : ℝ) ^ ((1 : ℝ) / 3)) ^ (3 : ℕ) = 2299 := by
    rw [← Real.rpow_natCast ((2299 : ℝ) ^ ((1 : ℝ) / 3)) 3, ← Real.rpow_mul hb,
      show ((1 : ℝ) / 3 * (3 : ℕ)) = 1 by norm_num, Real.rpow_one]
  by_contra hcon
  push_neg at hcon
  have h3 : ((2299 : ℝ) ^ ((1 : ℝ) / 3)) ^ (3 : ℕ) ≤ (13 : ℝ) ^ (3 : ℕ) :=
    pow_le_pow_left (Real.rpow_nonneg hb _) hcon 3
  rw [hpow] at h3
  norm_num at h3

/-- C4: every core function validates before computing: it succeeds, with a
well-defined result (positive wherever the spec promises a resistance, area
or dimensionless group), exactly on inputs satisfying its documented
preconditions, and any successful return forces every validated operand into
range — so every division and square root is applied to strictly positive
operands; moreover `compute_convection_resistance` rejects a nonpositive
total convection area before invoking any pipeline step. -/
theorem c4_validation_totality :
    (∀ l w : ℝ,
      (0 < l ∧ 0 < w → ∃ r, compute_die_area l w = .ok r ∧ 0 < r) ∧
      (∀ r, compute_die_area l w = .ok r → 0 < l ∧ 0 < w)) ∧
    (∀ (sw t : ℝ) (n : ℤ),
      (0 < sw ∧ 1 < n ∧ 0 < t ∧ (n : ℝ) * t < sw →
        ∃ r, compute_fin_spacing sw n t = .ok r ∧ 0 < r) ∧
      (∀ r, compute_fin_spacing sw n t = .ok r →
        0 < sw ∧ 1 < n ∧ 0 < t ∧ (n : ℝ) * t < sw)) ∧
    (∀ (fh sl : ℝ) (n : ℤ),
      (0 < fh ∧ 0 < sl ∧ 0 < n →
        ∃ r, compute_total_convection_area fh sl n = .ok r ∧ 0 < r) ∧
      (∀ r, compute_total_convection_area fh sl n = .ok r →
        0 < fh ∧ 0 < sl ∧ 0 < n)) ∧
    (∀ t k a : ℝ,
      (0 < t ∧ 0 < k ∧ 0 < a →
        ∃ r, compute_tim_resistance t k a = .ok r ∧ 0 < r) ∧
      (∀ r, compute_tim_resistance t k a = .ok r → 0 < t ∧ 0 < k ∧ 0 < a)) ∧
    (∀ b k a : ℝ,
      (0 < b ∧ 0 < k ∧ 0 < a →
        ∃ r, compute_conduction_resistance b k a = .ok r ∧ 0 < r) ∧
      (∀ r, compute_conduction_resistance b k a = .ok r →
        0 < b ∧ 0 < k ∧ 0 < a)) ∧
    (∀ v L ν : ℝ,
      (0 < v ∧ 0 < L ∧ 0 < ν →
        ∃ r, compute_reynolds_number v L ν = .ok r ∧ 0 < r) ∧
      (∀ r, compute_reynolds_number v L ν = .ok r → 0 < v ∧ 0 < L ∧ 0 < ν)) ∧
    (∀ Re Pr s H : ℝ,
      (0 < Re ∧ 0 < Pr ∧ 0 < s ∧ 0 < H →
        ∃ r, compute_nusselt_number Re Pr s H = .ok r ∧ 0 < r) ∧
      (∀ r, compute_nusselt_number Re Pr s H = .ok r →
        0 < Re ∧ 0 < Pr ∧ 0 < s ∧ 0 < H)) ∧
    (∀ Nu k s : ℝ,
      (0 < Nu ∧ 0 < k ∧ 0 < s →
        ∃ r, compute_heat_transfer_coefficient Nu k s = .ok r ∧ 0 < r) ∧
      (∀ r, compute_heat_transfer_coefficient Nu k s = .ok r →
        0 < Nu ∧ 0 < k ∧ 0 < s)) ∧
    (∀ L h t k : ℝ,
      (0 < L ∧ 0 < h ∧ 0 < t ∧ 0 < k →
        ∃ r, compute_fin_efficiency L h t k = .ok r ∧ 0 < r) ∧
      (∀ r, compute_fin_efficiency L h t k = .ok r →
        0 < L ∧ 0 < h ∧ 0 < t ∧ 0 < k)) ∧
    (∀ v s H A k ν Pr t ks : ℝ,
      (0 < v ∧ 0 < s ∧ 0 < H ∧ 0 < A ∧ 0 < k ∧ 0 < ν ∧ 0 < Pr ∧ 0 < t ∧ 0 < ks →
        ∃ r, compute_convection_resistance v s H A k ν Pr t ks = .ok r ∧ 0 < r) ∧
      (∀ r, compute_convection_resistance v s H A k ν Pr t ks = .ok r →
        0 < v ∧ 0 < s ∧ 0 < H ∧ 0 < A ∧ 0 < k ∧ 0 < ν ∧ 0 < Pr ∧ 0 < t ∧ 0 < ks) ∧
      (A ≤ 0 → compute_convection_resistance v s H A k ν Pr t ks =
        .error "Total convection area must be positive")) ∧
    (∀ c v : ℝ,
      (0 < c ∧ 0 < v → ∃ r, compute_heat_sink_resistance c v = .ok r ∧ 0 < r) ∧
      (∀ r, compute_heat_sink_resistance c v = .ok r → 0 < c ∧ 0 < v)) ∧
    (∀ jc t hs : ℝ,
      (0 ≤ jc ∧ 0 < t ∧ 0 < hs →
        ∃ r, compute_total_resistance jc t hs = .ok r ∧ 0 < r) ∧
      (∀ r, compute_total_resistance jc t hs = .ok r →
        0 ≤ jc ∧ 0 < t ∧ 0 < hs)) ∧
    (∀ T Q R : ℝ,
      (0 < R ∧ 0 ≤ Q → compute_junction_temperature T Q R = .ok (T + Q * R)) ∧
      (∀ r, compute_junction_temperature T Q R = .ok r → 0 < R ∧ 0 ≤ Q)) := by
  refine ⟨fun l w => ⟨?_, fun r hr => compute_die_area_ok_inv hr⟩,
    fun sw t n => ⟨?_, fun r hr => compute_fin_spacing_ok_inv hr⟩,
    fun fh sl n => ⟨?_, fun r hr => compute_total_convection_area_ok_inv hr⟩,
    fun t k a => ⟨?_, fun r hr => compute_tim_resistance_ok_inv hr⟩,
    fun b k a => ⟨?_, fun r hr => compute_conduction_resistance_ok_inv hr⟩,
    fun v L ν => ⟨?_, fun r hr => compute_reynolds_number_ok_inv hr⟩,
    fun Re Pr s H => ⟨?_, fun r hr => compute_nusselt_number_ok_inv hr⟩,
    fun Nu k s => ⟨?_, fun r hr => compute_heat_transfer_coefficient_ok_inv hr⟩,
    fun L h t k => ⟨?_, fun r hr => compute_fin_efficiency_ok_inv hr⟩,
    fun v s H A k ν Pr t ks =>
      ⟨?_, fun r hr => compute_convection_resistance_ok_inv hr, fun hA => ?_⟩,
    fun c v => ⟨?_, fun r hr => compute_heat_sink_resistance_ok_inv hr⟩,
    fun jc t hs => ⟨?_, fun r hr => compute_total_resistance_ok_inv hr⟩,
    fun T Q R => ⟨?_, fun r hr => compute_junction_temperature_ok_inv hr⟩⟩
  · rintro ⟨h1, h2⟩
    exact ⟨_, compute_die_area_ok l w h1 h2, by positivity⟩
  · rintro ⟨h1, h2, h3, h4⟩
    have hn1 : (1 : ℝ) < (n : ℝ) := by exact_mod_cast h2
    exact ⟨_, compute_fin_spacing_ok sw t n h1 h2 h3 h4,
      div_pos (by linarith) (by linarith)⟩
  · rintro ⟨h1, h2, h3⟩
    have hn0 : (0 : ℝ) < (n : ℝ) := by exact_mod_cast h3
    exact ⟨_, compute_total_convection_area_ok fh sl n h1 h2 h3, by positivity⟩
  · rintro ⟨h1, h2, h3⟩
    exact ⟨_, compute_tim_resistance_ok t k a h1 h2 h3, by positivity⟩
  · rintro ⟨h1, h2, h3⟩
    exact ⟨_, compute_conduction_resistance_ok b k a h1 h2 h3, by positivity⟩
  · rintro ⟨h1, h2, h3⟩
    exact ⟨_, compute_reynolds_number_ok v L ν h1 h2 h3, by positivity⟩
  · rintro ⟨h1, h2, h3, h4⟩
    exact ⟨_, compute_nusselt_number_ok Re Pr s H h1 h2 h3 h4,
      nusselt_value_pos Re Pr s H h1 h2 h3 h4⟩
  · rintro ⟨h1, h2, h3⟩
    exact ⟨_, compute_heat_transfer_coefficient_ok Nu k s h1 h2 h3, by positivity⟩
  · rintro ⟨h1, h2, h3, h4⟩
    exact ⟨_, compute_fin_efficiency_ok L h t k h1 h2 h3 h4,
      fin_efficiency_value_pos L h t k h1 h2 h3 h4⟩
  · rintro ⟨h1, h2, h3, h4, h5, h6, h7, h8, h9⟩
    have hRe : 0 < v * s / ν := by positivity
    have hNu := nusselt_value_pos (v * s / ν) Pr s H hRe h7 h2 h3
    have hhtc : 0 < nusselt_value (v * s / ν) Pr s H * k / (2 * s) := by positivity
    have hη := fin_efficiency_value_pos H
      (nusselt_value (v * s / ν) Pr s H * k / (2 * s)) t ks h3 hhtc h8 h9
    refine ⟨_, compute_convection_resistance_ok v s H A k ν Pr t ks
      h1 h2 h3 h4 h5 h6 h7 h8 h9, ?_⟩
    positivity
  · rw [compute_convection_resistance_def, if_pos hA]
  · rintro ⟨h1, h2⟩
    exact ⟨_, compute_heat_sink_resistance_ok c v h1 h2, by positivity⟩
  · rintro ⟨h1, h2, h3⟩
    exact ⟨_, compute_total_resistance_ok jc t hs h1 h2 h3, by linarith⟩
  · rintro ⟨h1, h2⟩
    exact compute_junction_temperature_ok T Q R h1 h2

/-- Witness for C4: a successful positive die area at 2 × 3, and the
area-first rejection of `compute_convection_resistance` when the total
convection area is −1 while every other argument is valid. -/
theorem c4_validation_totality_witness :
    (∃ r, compute_die_area 2 3 = .ok r ∧ 0 < r) ∧
    compute_convection_resistance 1 1 1 (-1) 1 1 1 1 1 =
      .error "Total convection area must be positive" := by
  refine ⟨(c4_validation_totality.1 2 3).1 (by norm_num), ?_⟩
  exact (c4_validation_totality.2.2.2.2.2.2.2.2.2.1 1 1 1 (-1) 1 1 1 1 1).2.2
    (by norm_num)

/-- C1: for positive fin height, heat-transfer coefficient, fin thickness and
thermal conductivity, `compute_fin_efficiency` returns tanh(m·L)/(m·L) when
m·L ≤ 10 (the tanh branch is taken at equality) and 1/(m·L) when m·L > 10,
with m = sqrt(2·h/(k·t)) and L the fin height. -/
theorem c1_fin_efficiency_branch_boundary (L h t k : ℝ)
    (hL : 0 < L) (hh : 0 < h) (ht : 0 < t) (hk : 0 < k) :
    (Real.sqrt (2.0 * h / (k * t)) * L ≤ 10 →
      compute_fin_efficiency L h t k =
        .ok (Real.tanh (Real.sqrt (2.0 * h / (k * t)) * L) /
          (Real.sqrt (2.0 * h / (k * t)) * L))) ∧
    (10 < Real.sqrt (2.0 * h / (k * t)) * L →
      compute_fin_efficiency L h t k =
        .ok (1.0 / (Real.sqrt (2.0 * h / (k * t)) * L))) := by
  rw [compute_fin_efficiency_def, if_neg (not_le.mpr hL), if_neg (not_le.mpr hh),
    if_neg (not_le.mpr ht), if_neg (not_le.mpr hk)]
  constructor
  · intro hml; rw [if_neg (not_lt.mpr hml)]
  · intro hml; rw [if_pos hml]

/-- Witness for C1 at fin height 1, coefficient 1/2, thickness 1,
conductivity 1, where m·L = sqrt(1)·1 = 1 ≤ 10: the tanh branch. -/
theorem c1_fin_efficiency_branch_boundary_witness :
    compute_fin_efficiency 1 (1 / 2) 1 1 =
      .ok (Real.tanh (Real.sqrt (2.0 * (1 / 2) / (1 * 1)) * 1) /
        (Real.sqrt (2.0 * (1 / 2) / (1 * 1)) * 1)) := by
  have hml : Real.sqrt (2.0 * ((1 : ℝ) / 2) / (1 * 1)) * 1 ≤ 10 := by
    rw [show (2.0 * ((1 : ℝ) / 2) / (1 * 1)) = 1 by norm_num, Real.sqrt_one]
    norm_num
  exact (c1_fin_efficiency_branch_boundary 1 (1 / 2) 1 1 (by norm_num)
    (by norm_num) (by norm_num) (by norm_num)).1 hml

/-- C2: for positive inputs, `compute_nusselt_number` returns the laminar
entrance-effect correlation 1.86·(Re·Pr·2·s/H)^(1/3) whenever Re < 2300 and
the turbulent Dittus–Boelter correlation 0.023·Re^0.8·Pr^0.3 whenever
Re ≥ 2300; the threshold is a strict less-than, so Re = 2300 is turbulent. -/
theorem c2_nusselt_flow_regimes (Re Pr s H : ℝ)
    (hRe : 0 < Re) (hPr : 0 < Pr) (hs : 0 < s) (hH : 0 < H) :
    (Re < 2300 → compute_nusselt_number Re Pr s H =
      .ok (1.86 * (Re * Pr * (2 * s / H)) ^ ((1 : ℝ) / 3))) ∧
    (2300 ≤ Re → compute_nusselt_number Re Pr s H =
      .ok (0.023 * Re ^ (0.8 : ℝ) * Pr ^ (0.3 : ℝ))) := by
  unfold compute_nusselt_number
  rw [if_neg (not_le.mpr hRe), if_neg (not_le.mpr hPr), if_neg (not_le.mpr hs),
    if_neg (not_le.mpr hH)]
  exact ⟨fun hlam => by rw [if_pos hlam],
    fun hturb => by rw [if_neg (not_lt.mpr hturb)]⟩

/-- Witness for C2 at Re = 2300 exactly: the turbulent formula is used. -/
theorem c2_nusselt_flow_regimes_witness :
    compute_nusselt_number 2300 1 1 2 =
      .ok (0.023 * (2300 : ℝ) ^ (0.8 : ℝ) * (1 : ℝ) ^ (0.3 : ℝ)) :=
  (c2_nusselt_flow_regimes 2300 1 1 2 (by norm_num) (by norm_num) (by norm_num)
    (by norm_num)).2 (by norm_num)

/-- C5 counterexample: `compute_total_convection_area` accepts
number_of_fins = 1 (its guard is only `number_of_fins <= 0`), returning
2·1·1·1 = 2 instead of raising InvalidInput as the claim states. -/
theorem c5_counterexample : compute_total_convection_area 1 1 1 = .ok 2 := by
  unfold compute_total_convection_area
  rw [if_neg (by norm_num), if_neg (by norm_num), if_neg (by norm_num)]
  norm_num

/-- C5 amended: `compute_fin_spacing` rejects every number_of_fins ≤ 1
(in particular 1), while `compute_total_convection_area` rejects only
number_of_fins ≤ 0 and accepts number_of_fins = 1 for positive height and
length. -/
theorem c5_amended_fin_count_validation (w t h L : ℝ) (n : ℤ)
    (hw : 0 < w) (ht : 0 < t) (hh : 0 < h) (hL : 0 < L) :
    (n ≤ 1 → ∃ e, compute_fin_spacing w n t = .error e) ∧
    (n ≤ 0 → ∃ e, compute_total_convection_area h L n = .error e) ∧
    (0 < n → ∃ r, compute_total_convection_area h L n = .ok r) := by
  refine ⟨fun hn => ?_, fun hn => ?_, fun hn => ?_⟩
  · have he : compute_fin_spacing w n t =
        .error "Number of fins must be greater than 1" := by
      rw [compute_fin_spacing_def, if_neg (not_le.mpr hw), if_pos hn]
    exact ⟨_, he⟩
  · have he : compute_total_convection_area h L n =
        .error "Number of fins must be positive" := by
      unfold compute_total_convection_area
      rw [if_neg (not_le.mpr hh), if_neg (not_le.mpr hL), if_pos hn]
    exact ⟨_, he⟩
  · have he : compute_total_convection_area h L n =
        .ok (2.0 * (n : ℝ) * h * L) := by
      unfold compute_total_convection_area
      rw [if_neg (not_le.mpr hh), if_neg (not_le.mpr hL), if_neg (not_le.mpr hn)]
    exact ⟨_, he⟩

/-- Witness for the amended C5 at number_of_fins = 1 and unit dimensions. -/
theorem c5_amended_fin_count_validation_witness :
    (∃ e, compute_fin_spacing 1 1 1 = .error e) ∧
    (∃ r, compute_total_convection_area 1 1 1 = .ok r) := by
  have h := c5_amended_fin_count_validation 1 1 1 1 1 (by norm_num) (by norm_num)
    (by norm_num) (by norm_num)
  exact ⟨h.1 (by norm_num), h.2.2 (by norm_num)⟩

/-- C6: under positive sink width, more than one fin, and positive fin
thickness, `compute_fin_spacing` fails with the dedicated
geometry-infeasibility message (distinct from each plain positivity-range
message) exactly when n·t ≥ w, and otherwise returns
(w − n·t)/(n − 1). -/
theorem c6_geometry_infeasibility (w t : ℝ) (n : ℤ)
    (hw : 0 < w) (hn : 1 < n) (ht : 0 < t) :
    (w ≤ (n : ℝ) * t →
      compute_fin_spacing w n t =
        .error "Invalid fin geometry: fins occupy entire sink width" ∧
      "Invalid fin geometry: fins occupy entire sink width" ≠
        "Sink width must be positive" ∧
      "Invalid fin geometry: fins occupy entire sink width" ≠
        "Number of fins must be greater than 1" ∧
      "Invalid fin geometry: fins occupy entire sink width" ≠
        "Fin thickness must be positive") ∧
    ((n : ℝ) * t < w →
      compute_fin_spacing w n t = .ok ((w - (n : ℝ) * t) / ((n : ℝ) - 1))) := by
  rw [compute_fin_spacing_def]
  refine ⟨fun hge => ⟨?_, by decide, by decide, by decide⟩, fun hlt => ?_⟩
  · rw [if_neg (not_le.mpr hw), if_neg (not_le.mpr hn), if_neg (not_le.mpr ht),
      if_pos (by linarith)]
  · rw [if_neg (not_le.mpr hw), if_neg (not_le.mpr hn), if_neg (not_le.mpr ht),
      if_neg (not_le.mpr (by linarith))]

/-- Witness for C6: two fins of thickness 1 in a sink of width 1 occupy the
entire width, producing the geometry-infeasibility error. -/
theorem c6_geometry_infeasibility_witness :
    compute_fin_spacing 1 2 1 =
      .error "Invalid fin geometry: fins occupy entire sink width" :=
  ((c6_geometry_infeasibility 1 1 2 (by norm_num) (by norm_num) (by norm_num)).1
    (by push_cast; norm_num)).1

/-- C7: `compute_heat_sink_resistance` returns exactly the sum of its two
positive arguments, and `compute_total_resistance` returns exactly the sum of
its three arguments (junction-to-case ≥ 0, the other two > 0). -/
theorem c7_additive_composition (c v jc t hs : ℝ)
    (hc : 0 < c) (hv : 0 < v) (hjc : 0 ≤ jc) (ht : 0 < t) (hhs : 0 < hs) :
    compute_heat_sink_resistance c v = .ok (c + v) ∧
    compute_total_resistance jc t hs = .ok (jc + t + hs) := by
  constructor
  · unfold compute_heat_sink_resistance
    rw [if_neg (not_le.mpr hc), if_neg (not_le.mpr hv)]
  · unfold compute_total_resistance
    rw [if_neg (not_lt.mpr hjc), if_neg (not_le.mpr ht), if_neg (not_le.mpr hhs)]

/-- Witness for C7 at concrete resistances (junction-to-case exactly 0). -/
theorem c7_additive_composition_witness :
    compute_heat_sink_resistance 1 2 = .ok (1 + 2) ∧
    compute_total_resistance 0 1 2 = .ok (0 + 1 + 2) :=
  c7_additive_composition 1 2 0 1 2 (by norm_num) (by norm_num) (by norm_num)
    (by norm_num) (by norm_num)

/-- C8: `compute_total_resistance` fails exactly when the junction-to-case
resistance is negative, the TIM resistance is ≤ 0, or the heat-sink
resistance is ≤ 0; junction-to-case 0 is accepted, TIM 0 and
junction-to-case −0.1 are rejected. -/
theorem c8_total_resistance_error_iff :
    (∀ jc t hs : ℝ, (∃ e, compute_total_resistance jc t hs = .error e) ↔
      (jc < 0 ∨ t ≤ 0 ∨ hs ≤ 0)) ∧
    (∃ r, compute_total_resistance 0 1 1 = .ok r) ∧
    (∃ e, compute_total_resistance 1 0 1 = .error e) ∧
    (∃ e, compute_total_resistance (-0.1) 1 1 = .error e) := by
  refine ⟨fun jc t hs => ?_, ?_, ?_, ?_⟩
  · unfold compute_total_resistance
    split_ifs with h1 h2 h3
    · exact ⟨fun _ => Or.inl h1, fun _ => ⟨_, rfl⟩⟩
    · exact ⟨fun _ => Or.inr (Or.inl h2), fun _ => ⟨_, rfl⟩⟩
    · exact ⟨fun _ => Or.inr (Or.inr h3), fun _ => ⟨_, rfl⟩⟩
    · constructor
      · rintro ⟨e, he⟩
        exact absurd he (by simp)
      · rintro (h | h | h)
        · exact absurd h h1
        · exact absurd h h2
        · exact absurd h h3
  · have he : compute_total_resistance 0 1 1 = .ok (0 + 1 + 1) := by
      unfold compute_total_resistance
      rw [if_neg (by norm_num), if_neg (by norm_num), if_neg (by norm_num)]
    exact ⟨_, he⟩
  · have he : compute_total_resistance 1 0 1 =
        .error "TIM resistance must be positive" := by
      unfold compute_total_resistance
      rw [if_neg (by norm_num), if_pos (by norm_num)]
    exact ⟨_, he⟩
  · have he : compute_total_resistance (-0.1) 1 1 =
        .error "Junction-to-case resistance cannot be negative" := by
      unfold compute_total_resistance
      rw [if_pos (by norm_num)]
    exact ⟨_, he⟩

/-- C9: `compute_junction_temperature` returns exactly
ambient + heat·resistance for positive resistance and nonnegative heat, with
no constraint on the ambient temperature, and fails when the resistance is
≤ 0 or the heat dissipation is negative. -/
theorem c9_junction_temperature_formula (T Q R : ℝ) :
    (0 < R → 0 ≤ Q → compute_junction_temperature T Q R = .ok (T + Q * R)) ∧
    (R ≤ 0 ∨ Q < 0 → ∃ e, compute_junction_temperature T Q R = .error e) := by
  unfold compute_junction_temperature
  constructor
  · intro hR hQ
    rw [if_neg (not_le.mpr hR), if_neg (not_lt.mpr hQ)]
  · intro h
    by_cases hR : R ≤ 0
    · exact ⟨_, by rw [if_pos hR]⟩
    · have hQ : Q < 0 := h.resolve_left hR
      exact ⟨_, by rw [if_neg hR, if_pos hQ]⟩

/-- Witness for C9 at a sub-zero ambient temperature of −40. -/
theorem c9_junction_temperature_formula_witness :
    compute_junction_temperature (-40) 2 3 = .ok (-40 + 2 * 3) :=
  (c9_junction_temperature_formula (-40) 2 3).1 (by norm_num) (by norm_num)

/-- C10: `run_thermal_analysis` equals the single-conductivity variant
applied to `heat_sink.thermal_conductivity` with default 167.0, so the
conduction step and the fin-efficiency step always receive the same sink
conductivity; an absent field yields 167.0 and a supplied field yields its
value. -/
theorem c10_sink_conductivity_threading :
    (∀ p : ThermalRequest, run_thermal_analysis p =
      run_thermal_analysis_single_sink_conductivity p
        (p.heat_sink.thermal_conductivity.getD 167.0)) ∧
    (Option.getD (none : Option ℝ) 167.0 = 167.0) ∧
    (∀ v : ℝ, Option.getD (some v) 167.0 = v) :=
  ⟨fun _ => rfl, rfl, fun _ => rfl⟩

/-- C3 counterexample: with fin spacing 1, fin height 2, area 1, air
conductivity 2, viscosity 1, Prandtl 1, fin thickness 0.01 and sink
conductivity 1, raising the air velocity from 2299 (laminar, Re = 2299) to
2300 (turbulent, Re = 2300) strictly increases the convection resistance:
the laminar Nusselt value 1.86·2299^(1/3) > 24 collapses to the turbulent
value 0.023·2300^0.8 < 13.8, so the claimed strict decrease fails across the
regime boundary. -/
theorem c3_counterexample :
    (2299 : ℝ) < 2300 ∧
    ∃ r1 r2, compute_convection_resistance 2299 1 2 1 2 1 1 0.01 1 = .ok r1 ∧
      compute_convection_resistance 2300 1 2 1 2 1 1 0.01 1 = .ok r2 ∧
      r1 < r2 := by
  refine ⟨by norm_num, _, _,
    compute_convection_resistance_ok 2299 1 2 1 2 1 1 0.01 1 (by norm_num)
      (by norm_num) (by norm_num) (by norm_num) (by norm_num) (by norm_num)
      (by norm_num) (by norm_num) (by norm_num),
    compute_convection_resistance_ok 2300 1 2 1 2 1 1 0.01 1 (by norm_num)
      (by norm_num) (by norm_num) (by norm_num) (by norm_num) (by norm_num)
      (by norm_num) (by norm_num) (by norm_num), ?_⟩
  have e1 : nusselt_value (2299 * 1 / 1 : ℝ) 1 1 2 =
      1.86 * (2299 : ℝ) ^ ((1 : ℝ) / 3) := by
    unfold nusselt_value
    rw [if_pos (by norm_num)]
    norm_num
  have e2 : nusselt_value (2300 * 1 / 1 : ℝ) 1 1 2 =
      0.023 * (2300 : ℝ) ^ (0.8 : ℝ) := by
    unfold nusselt_value
    rw [if_neg (by norm_num), Real.one_rpow]
    norm_num
  rw [e1, e2]
  have hdrop : ∀ X : ℝ, X * 2 / (2 * 1) = X := fun X => by ring
  simp only [hdrop]
  have hNu2pos : 0 < 0.023 * (2300 : ℝ) ^ (0.8 : ℝ) := by positivity
  have hlt : 0.023 * (2300 : ℝ) ^ (0.8 : ℝ) < 1.86 * (2299 : ℝ) ^ ((1 : ℝ) / 3) := by
    nlinarith [rpow_2300_08_lt_600, cbrt_2299_gt_13]
  have hE := h_mul_eff_strict_mono 2 0.01 1
    (0.023 * (2300 : ℝ) ^ (0.8 : ℝ)) (1.86 * (2299 : ℝ) ^ ((1 : ℝ) / 3))
    (by norm_num) (by norm_num) (by norm_num) hNu2pos hlt
  have hη1 : 0 < fin_efficiency_value 2 (1.86 * (2299 : ℝ) ^ ((1 : ℝ) / 3)) 0.01 1 :=
    fin_efficiency_value_pos 2 _ 0.01 1 (by norm_num) (by positivity) (by norm_num)
      (by norm_num)
  have hη2 : 0 < fin_efficiency_value 2 (0.023 * (2300 : ℝ) ^ (0.8 : ℝ)) 0.01 1 :=
    fin_efficiency_value_pos 2 _ 0.01 1 (by norm_num) hNu2pos (by norm_num)
      (by norm_num)
  rw [show (1.0 : ℝ) = 1 by norm_num]
  apply one_div_lt_one_div_of_lt
  · positivity
  · nlinarith [hE]

/-- C3 amended: increasing the air velocity strictly decreases the
convection resistance whenever the two velocities lie in the same flow
regime (both Reynolds numbers below 2300, or both at least 2300); across
the regime boundary the Nusselt correlations may jump downward and the
resistance may increase. -/
theorem c3_amended_monotonic_within_regime
    (v1 v2 s H A k ν Pr t ks : ℝ)
    (hv1 : 0 < v1) (h12 : v1 < v2) (hs : 0 < s) (hH : 0 < H) (hA : 0 < A)
    (hk : 0 < k) (hν : 0 < ν) (hPr : 0 < Pr) (ht : 0 < t) (hks : 0 < ks)
    (hreg : v2 * s / ν < 2300 ∨ 2300 ≤ v1 * s / ν) :
    ∃ r1 r2, compute_convection_resistance v1 s H A k ν Pr t ks = .ok r1 ∧
      compute_convection_resistance v2 s H A k ν Pr t ks = .ok r2 ∧
      r2 < r1 := by
  have hv2 : 0 < v2 := lt_trans hv1 h12
  refine ⟨_, _,
    compute_convection_resistance_ok v1 s H A k ν Pr t ks hv1 hs hH hA hk hν
      hPr ht hks,
    compute_convection_resistance_ok v2 s H A k ν Pr t ks hv2 hs hH hA hk hν
      hPr ht hks, ?_⟩
  have hRe1 : 0 < v1 * s / ν := by positivity
  have hRe12 : v1 * s / ν < v2 * s / ν := by gcongr
  have hNu1 : 0 < nusselt_value (v1 * s / ν) Pr s H :=
    nusselt_value_pos _ Pr s H hRe1 hPr hs hH
  have hNu12 : nusselt_value (v1 * s / ν) Pr s H <
      nusselt_value (v2 * s / ν) Pr s H :=
    nusselt_value_lt _ _ Pr s H hRe1 hRe12 hPr hs hH hreg
  have hh1 : 0 < nusselt_value (v1 * s / ν) Pr s H * k / (2 * s) := by positivity
  have hh12 : nusselt_value (v1 * s / ν) Pr s H * k / (2 * s) <
      nusselt_value (v2 * s / ν) Pr s H * k / (2 * s) := by gcongr
  have hE := h_mul_eff_strict_mono H t ks
    (nusselt_value (v1 * s / ν) Pr s H * k / (2 * s))
    (nusselt_value (v2 * s / ν) Pr s H * k / (2 * s)) hH ht hks hh1 hh12
  have hη1 : 0 < fin_efficiency_value H
      (nusselt_value (v1 * s / ν) Pr s H * k / (2 * s)) t ks :=
    fin_efficiency_value_pos H _ t ks hH hh1 ht hks
  have hη2 : 0 < fin_efficiency_value H
      (nusselt_value (v2 * s / ν) Pr s H * k / (2 * s)) t ks :=
    fin_efficiency_value_pos H _ t ks hH (lt_trans hh1 hh12) ht hks
  rw [show (1.0 : ℝ) = 1 by norm_num]
  apply one_div_lt_one_div_of_lt
  · positivity
  · nlinarith [hE, hA]

/-- Witness for the amended C3: velocities 1 < 2 with unit geometry, both
laminar (Re = 1 and Re = 2). -/
theorem c3_amended_monotonic_within_regime_witness :
    ∃ r1 r2, compute_convection_resistance 1 1 1 1 1 1 1 1 1 = .ok r1 ∧
      compute_convection_resistance 2 1 1 1 1 1 1 1 1 = .ok r2 ∧
      r2 < r1 :=
  c3_amended_monotonic_within_regime 1 2 1 1 1 1 1 1 1 1 (by norm_num)
    (by norm_num) (by norm_num) (by norm_num) (by norm_num) (by norm_num)
    (by norm_num) (by norm_num) (by norm_num) (by norm_num)
    (Or.inl (by norm_num))
